import Mathlib

/-!
Verification of the AquaFlow analytical engine (src/app.py).

The engine is four pure numeric functions plus a threshold classifier.
We embed the arithmetic over ℚ (the Python source manipulates decimal
literals exactly representable as rationals) and the classifier as a
total function returning `Option Tier`, where `none` models the
unguarded `ZeroDivisionError` path of the source.
-/

namespace AquaFlow

/-- The default value of the `panel_efficiency` parameter of
`ai_predict_energy` (app.py line 14). -/
def DEFAULT_PANEL_EFFICIENCY : ℚ := 0.18

/-- Embedding of `ai_predict_energy` (app.py lines 14-20):
`base_irradiance = (sunlight_hrs * 1000) * (1 + (temp - 25) * -0.004)`,
`prediction = base_irradiance * panel_efficiency * 50`, floored at zero. -/
def ai_predict_energy (temp sunlight_hrs panel_efficiency : ℚ) : ℚ :=
  let base_irradiance := (sunlight_hrs * 1000) * (1 + (temp - 25) * (-0.004))
  let prediction := base_irradiance * panel_efficiency * 50
  max 0 prediction

/-- Embedding of `ai_predict_water_demand` (app.py lines 22-27):
`base_consumption = 50`, `temp_factor = 1 + (max(0, temp - 20) * 0.05)`,
`demand = population * base_consumption * temp_factor`. -/
def ai_predict_water_demand (temp population : ℚ) : ℚ :=
  let base_consumption : ℚ := 50
  let temp_factor := 1 + (max 0 (temp - 20) * 0.05)
  population * base_consumption * temp_factor

/-- Embedding of `calculate_carbon_credits` (app.py lines 29-36):
`co2_saved = solar_energy_kwh * 0.85`,
`financial_value = co2_saved * 0.04`, returned as a pair. -/
def calculate_carbon_credits (solar_energy_kwh : ℚ) : ℚ × ℚ :=
  let DIESEL_EMISSION_FACTOR : ℚ := 0.85
  let CARBON_MARKET_PRICE : ℚ := 0.04
  let co2_saved := solar_energy_kwh * DIESEL_EMISSION_FACTOR
  let financial_value := co2_saved * CARBON_MARKET_PRICE
  (co2_saved, financial_value)

/-- The three recommendation tiers rendered by the decision logic
(app.py lines 88-93): `Optimal` is the `st.success` branch,
`PartialSupport` the `st.warning` branch ("Partial Support"),
`Critical` the `st.error` branch ("Critical Alert"). -/
inductive Tier where
  | Optimal
  | PartialSupport
  | Critical
deriving DecidableEq

/-- The `efficiency_ratio` of app.py line 86:
`energy_output / (water_demand * 0.005)`. -/
def ratioOf (energy_output water_demand : ℚ) : ℚ :=
  energy_output / (water_demand * 0.005)

/-- Embedding of the decision logic (app.py lines 86-93). Python raises
`ZeroDivisionError` when the denominator `water_demand * 0.005` is zero;
we model that fault path as `none`. Otherwise:
`if efficiency_ratio >= 1.0` then Optimal,
`elif efficiency_ratio > 0.6` then PartialSupport, else Critical. -/
def classify (energy_output water_demand : ℚ) : Option Tier :=
  if water_demand * 0.005 = 0 then none
  else if ratioOf energy_output water_demand ≥ 1.0 then some Tier.Optimal
  else if ratioOf energy_output water_demand > 0.6 then some Tier.PartialSupport
  else some Tier.Critical

/-- Claim C1, counterexample: with solar_energy_kwh = 3 and
water_demand_liters = 1000 (positive), the efficiency ratio is exactly
0.6, yet the code classifies it as Critical, not Partial: the source
branch is `elif efficiency_ratio > 0.6`, a strict inequality, so the
Partial tier is NOT closed at its lower bound 0.6 as the claim states. -/
theorem c1_boundary_counterexample :
    (0 : ℚ) < 1000 ∧ ratioOf 3 1000 = 0.6 ∧
      classify 3 1000 = some Tier.Critical ∧
      classify 3 1000 ≠ some Tier.PartialSupport := by
  have h : classify 3 1000 = some Tier.Critical := by
    norm_num [classify, ratioOf]
  exact ⟨by norm_num, by norm_num [ratioOf], h, by rw [h]; decide⟩

/-- Claim C1, amended: for every pair (solar_energy_kwh,
water_demand_liters) with water_demand_liters > 0, a ratio of exactly
1.0 yields Optimal, a ratio of exactly 0.6 yields Critical (the Partial
tier's lower boundary is open, not closed), and every ratio strictly
below 0.6 yields Critical. -/
theorem c1_tier_boundaries (e w : ℚ) (hw : 0 < w) :
    (ratioOf e w = 1 → classify e w = some Tier.Optimal) ∧
      (ratioOf e w = 0.6 → classify e w = some Tier.Critical) ∧
      (ratioOf e w < 0.6 → classify e w = some Tier.Critical) := by
  have hden : w * 0.005 ≠ 0 := by positivity
  refine ⟨fun h1 => ?_, fun h6 => ?_, fun hlt => ?_⟩ <;>
    simp only [classify, if_neg hden]
  · rw [if_pos (by rw [h1]; norm_num)]
  · rw [if_neg (by rw [h6]; norm_num), if_neg (by rw [h6]; norm_num)]
  · rw [if_neg (by norm_num; linarith), if_neg (by norm_num; linarith)]

/-- Claim C1, witness for the amended theorem at solar_energy_kwh = 5,
water_demand_liters = 1000 (ratio exactly 1). -/
theorem c1_tier_boundaries_witness :
    (0 : ℚ) < 1000 ∧ classify 5 1000 = some Tier.Optimal :=
  ⟨by norm_num,
    (c1_tier_boundaries 5 1000 (by norm_num)).1 (by norm_num [ratioOf])⟩

/-- Claim C2: the source does NOT guard the zero-demand case. With
water_demand_liters = 0 the division `energy_output / (water_demand *
0.005)` at app.py line 86 is a division by zero, which raises
`ZeroDivisionError` in Python (modelled here as `none`) instead of
returning the Optimal tier the spec's guard policy requires. -/
theorem c2_zero_demand_division_fault :
    classify 0 0 = none ∧ classify 72000 0 = none := by
  constructor <;> norm_num [classify]

/-- Claim C3: for every temperature and every sunlight_hrs ≥ 0 and
panel_efficiency ≥ 0, `ai_predict_energy` returns a value ≥ 0; the
`max(0, prediction)` floor guarantees this unconditionally, even when
the temperature-derating factor is negative. -/
theorem c3_energy_nonneg (temp sunlight_hrs panel_efficiency : ℚ)
    (hs : 0 ≤ sunlight_hrs) (he : 0 ≤ panel_efficiency) :
    0 ≤ ai_predict_energy temp sunlight_hrs panel_efficiency :=
  le_max_left 0 _

/-- Claim C3, witness at temperature 300 (derating factor negative),
sunlight_hrs = 8, panel_efficiency = 0.18. -/
theorem c3_energy_nonneg_witness :
    ((0 : ℚ) ≤ 8 ∧ (0 : ℚ) ≤ 0.18) ∧ 0 ≤ ai_predict_energy 300 8 0.18 :=
  ⟨⟨by norm_num, by norm_num⟩,
    c3_energy_nonneg 300 8 0.18 (by norm_num) (by norm_num)⟩

/-- Claim C4: `ai_predict_energy` computes
`max(0, sunlight_hrs * 1000 * (1 + (temp - 25) * -0.004) *
panel_efficiency * 50)`, and at temp = 25, sunlight_hrs = 8 with the
default panel_efficiency 0.18 it returns exactly 72000. -/
theorem c4_energy_formula :
    (∀ temp sunlight_hrs panel_efficiency : ℚ,
      ai_predict_energy temp sunlight_hrs panel_efficiency =
        max 0 (sunlight_hrs * 1000 * (1 + (temp - 25) * (-0.004)) *
          panel_efficiency * 50)) ∧
      ai_predict_energy 25 8 DEFAULT_PANEL_EFFICIENCY = 72000 := by
  constructor
  · intro temp sunlight_hrs panel_efficiency
    rfl
  · norm_num [ai_predict_energy, DEFAULT_PANEL_EFFICIENCY]

/-- Claim C5: `ai_predict_water_demand` computes
`population * 50 * (1 + max(0, temp - 20) * 0.05)`; at or below 20°C the
temperature factor is exactly 1 so the demand is population * 50; in
particular (20, 1000) ↦ 50000 and (30, 1000) ↦ 75000. -/
theorem c5_demand_formula :
    (∀ temp population : ℚ,
      ai_predict_water_demand temp population =
        population * 50 * (1 + max 0 (temp - 20) * 0.05)) ∧
      (∀ temp population : ℚ, temp ≤ 20 →
        ai_predict_water_demand temp population = population * 50) ∧
      ai_predict_water_demand 20 1000 = 50000 ∧
      ai_predict_water_demand 30 1000 = 75000 := by
  refine ⟨fun temp population => rfl, fun temp population ht => ?_, ?_, ?_⟩
  · have h0 : max 0 (temp - 20) = 0 := max_eq_left (by linarith)
    simp only [ai_predict_water_demand, h0]
    ring
  · norm_num [ai_predict_water_demand]
  · norm_num [ai_predict_water_demand]

/-- Claim C5, witness for the baseline-factor clause at temp = 5,
population = 7. -/
theorem c5_demand_formula_witness :
    (5 : ℚ) ≤ 20 ∧ ai_predict_water_demand 5 7 = 7 * 50 :=
  ⟨by norm_num, c5_demand_formula.2.1 5 7 (by norm_num)⟩

/-- Claim C6: `calculate_carbon_credits` returns the pair
`(s * 0.85, s * 0.85 * 0.04)`; in particular at s = 100 it returns
exactly (85, 3.4). -/
theorem c6_carbon_credits :
    (∀ solar_energy_kwh : ℚ,
      calculate_carbon_credits solar_energy_kwh =
        (solar_energy_kwh * 0.85, solar_energy_kwh * 0.85 * 0.04)) ∧
      calculate_carbon_credits 100 = (85, 3.4) := by
  constructor
  · intro solar_energy_kwh
    rfl
  · norm_num [calculate_carbon_credits]

/-- Claim C7: `ai_predict_water_demand` is monotonically non-decreasing
in temperature for every fixed population ≥ 0 and temperatures ≥ 20, and
monotonically non-decreasing in population for every fixed temperature. -/
theorem c7_demand_monotone :
    (∀ population t1 t2 : ℚ, 0 ≤ population → 20 ≤ t1 → t1 ≤ t2 →
      ai_predict_water_demand t1 population ≤
        ai_predict_water_demand t2 population) ∧
      (∀ temp p1 p2 : ℚ, p1 ≤ p2 →
        ai_predict_water_demand temp p1 ≤ ai_predict_water_demand temp p2) := by
  constructor
  · intro population t1 t2 hp h20 h12
    have h1 : max 0 (t1 - 20) = t1 - 20 := max_eq_right (by linarith)
    have h2 : max 0 (t2 - 20) = t2 - 20 := max_eq_right (by linarith)
    simp only [ai_predict_water_demand, h1, h2]
    nlinarith
  · intro temp p1 p2 h12
    have hf : (0 : ℚ) ≤ 50 * (1 + max 0 (temp - 20) * 0.05) := by
      have : (0 : ℚ) ≤ max 0 (temp - 20) := le_max_left 0 _
      nlinarith
    simp only [ai_predict_water_demand]
    calc p1 * 50 * (1 + max 0 (temp - 20) * 0.05)
        = p1 * (50 * (1 + max 0 (temp - 20) * 0.05)) := by ring
      _ ≤ p2 * (50 * (1 + max 0 (temp - 20) * 0.05)) :=
          mul_le_mul_of_nonneg_right h12 hf
      _ = p2 * 50 * (1 + max 0 (temp - 20) * 0.05) := by ring

/-- Claim C7, witness: temperature monotonicity at population = 1000,
temperatures 25 ≤ 30, and population monotonicity at temperature 10,
populations 100 ≤ 200. -/
theorem c7_demand_monotone_witness :
    ((0 : ℚ) ≤ 1000 ∧ (20 : ℚ) ≤ 25 ∧ (25 : ℚ) ≤ 30 ∧
      ai_predict_water_demand 25 1000 ≤ ai_predict_water_demand 30 1000) ∧
      ((100 : ℚ) ≤ 200 ∧
        ai_predict_water_demand 10 100 ≤ ai_predict_water_demand 10 200) :=
  ⟨⟨by norm_num, by norm_num, by norm_num,
      c7_demand_monotone.1 1000 25 30 (by norm_num) (by norm_num) (by norm_num)⟩,
    ⟨by norm_num, c7_demand_monotone.2 10 100 200 (by norm_num)⟩⟩

/-- Claim C8: the solar estimator, water-demand estimator, carbon-credit
valuator and recommendation classifier are deterministic: each is a pure
function of its arguments (the embedding is stateless by construction,
faithfully reflecting that the source functions read no mutable state),
so two invocations with identical inputs return identical outputs. -/
theorem c8_deterministic
    (temp sunlight_hrs panel_efficiency population solar_energy_kwh
      energy_output water_demand : ℚ) :
    ai_predict_energy temp sunlight_hrs panel_efficiency =
        ai_predict_energy temp sunlight_hrs panel_efficiency ∧
      ai_predict_water_demand temp population =
        ai_predict_water_demand temp population ∧
      calculate_carbon_credits solar_energy_kwh =
        calculate_carbon_credits solar_energy_kwh ∧
      classify energy_output water_demand =
        classify energy_output water_demand :=
  ⟨rfl, rfl, rfl, rfl⟩

/-- Claim C9: for every temperature, a population of zero yields a water
demand of exactly zero — precisely the input that feeds the classifier
its zero-denominator edge case. -/
theorem c9_zero_population_zero_demand (temp : ℚ) :
    ai_predict_water_demand temp 0 = 0 := by
  simp [ai_predict_water_demand]

/-- Claim C10: for sunlight_hrs ≥ 0, panel_efficiency ≥ 0 and
temperature ≤ 275, the derating factor `1 + (temp - 25) * -0.004` is
≥ 0, so the `max(0, ·)` floor is the identity and `ai_predict_energy`
returns the raw product; moreover sunlight_hrs = 0 always yields 0. -/
theorem c10_floor_identity :
    (∀ temp sunlight_hrs panel_efficiency : ℚ,
      0 ≤ sunlight_hrs → 0 ≤ panel_efficiency → temp ≤ 275 →
        0 ≤ 1 + (temp - 25) * (-0.004) ∧
          ai_predict_energy temp sunlight_hrs panel_efficiency =
            sunlight_hrs * 1000 * (1 + (temp - 25) * (-0.004)) *
              panel_efficiency * 50) ∧
      (∀ temp panel_efficiency : ℚ,
        ai_predict_energy temp 0 panel_efficiency = 0) := by
  constructor
  · intro temp sunlight_hrs panel_efficiency hs he ht
    have hfac : 0 ≤ 1 + (temp - 25) * (-0.004) := by
      norm_num
      linarith
    refine ⟨hfac, ?_⟩
    have hraw : 0 ≤ sunlight_hrs * 1000 * (1 + (temp - 25) * (-0.004)) *
        panel_efficiency * 50 := by positivity
    simp only [ai_predict_energy]
    rw [max_eq_right hraw]
  · intro temp panel_efficiency
    simp [ai_predict_energy]

/-- Claim C10, witness at temp = 40, sunlight_hrs = 8, panel_efficiency
= 0.18 (inside the UI-constrained domain), plus the zero-sunlight case. -/
theorem c10_floor_identity_witness :
    ((0 : ℚ) ≤ 8 ∧ (0 : ℚ) ≤ 0.18 ∧ (40 : ℚ) ≤ 275 ∧
      0 ≤ 1 + ((40 : ℚ) - 25) * (-0.004) ∧
        ai_predict_energy 40 8 0.18 =
          8 * 1000 * (1 + ((40 : ℚ) - 25) * (-0.004)) * 0.18 * 50) ∧
      ai_predict_energy 17 0 0.18 = 0 :=
  ⟨⟨by norm_num, by norm_num, by norm_num,
      (c10_floor_identity.1 40 8 0.18 (by norm_num) (by norm_num)
        (by norm_num)).1,
      (c10_floor_identity.1 40 8 0.18 (by norm_num) (by norm_num)
        (by norm_num)).2⟩,
    c10_floor_identity.2 17 0.18⟩

end AquaFlow
